import Mathlib

/-!
Shallow embedding of the SnowflakeSolutions repository (two Python services):
  - src/python-report-service/app.py : FastAPI job-intake and report-generation
    service (dispatch over five report types, JSON report documents uploaded to
    object storage, job status round-trips to the warehouse);
  - src/streamlit-app/app.py : chat front end whose template selector maps
    free text to canned SQL query strings by keyword scanning.

Machine conventions used throughout: Python numbers are modelled as exact
rationals plus an explicit NaN constructor (float arithmetic in this service
only ever divides and sums small counts, where float and rational agree);
Python exceptions are modelled by Option / Except results (none / error is a
raised exception); pandas dataframes are a column-name list plus a row list.
ASCII case conversion mirrors str.lower / str.upper on the ASCII inputs the
service actually compares.
-/

/-- ASCII lower-casing of one character, as Python str.lower acts on ASCII. -/
def charLower (c : Char) : Char :=
  if 65 ≤ c.toNat ∧ c.toNat ≤ 90 then Char.ofNat (c.toNat + 32) else c

/-- ASCII lower-casing of a string (Python str.lower on ASCII input). -/
def strLower (s : String) : String := ⟨s.data.map charLower⟩

/-- ASCII upper-casing of one character, as Python str.upper acts on ASCII. -/
def charUpper (c : Char) : Char :=
  if 97 ≤ c.toNat ∧ c.toNat ≤ 122 then Char.ofNat (c.toNat - 32) else c

/-- ASCII upper-casing of a string (Python str.upper on ASCII input). -/
def strUpper (s : String) : String := ⟨s.data.map charUpper⟩

/-- Boolean list-prefix test (needle, haystack). -/
def isPrefixB : List Char → List Char → Bool
  | [], _ => true
  | _ :: _, [] => false
  | a :: as, b :: bs => a == b && isPrefixB as bs

/-- Boolean substring test on character lists: Python needle in haystack. -/
def isInfixB (n : List Char) : List Char → Bool
  | [] => isPrefixB n []
  | h :: t => isPrefixB n (h :: t) || isInfixB n t

/-- Python substring containment needle in haystack for strings. -/
def containsSub (haystack needle : String) : Bool :=
  isInfixB needle.data haystack.data

theorem strData_append : ∀ (s t : String), (s ++ t).data = s.data ++ t.data :=
  fun ⟨_⟩ ⟨_⟩ => rfl

theorem strExt {s t : String} (h : s.data = t.data) : s = t := by
  cases s
  cases t
  exact congrArg String.mk h

/-- One warehouse cell value: a number, a float NaN, a string, or SQL NULL
(Python None). -/
inductive Value where
  | num (q : ℚ)
  | nan
  | str (s : String)
  | null
deriving DecidableEq

/-- One result-set row, listed in column order. -/
abbrev Row := List Value

/-- A pandas dataframe as built by SnowflakeConnection.execute_query
(app.py:108-119): column names from cursor.description plus fetched rows. -/
structure DataFrame where
  columns : List String
  rows : List Row
deriving DecidableEq

/-- Index of a column label, none when the label is absent (a pandas KeyError
on access). -/
def DataFrame.colIndex (df : DataFrame) (c : String) : Option ℕ :=
  df.columns.indexOf? c

/-- The series df[c]: the column values, none when the label is absent. -/
def DataFrame.col (df : DataFrame) (c : String) : Option (List Value) :=
  (df.colIndex c).map fun i => df.rows.map fun r => r.getD i Value.null

/-- The cell df.iloc[i][c]; none when the row or the column is absent. -/
def DataFrame.cell (df : DataFrame) (i : ℕ) (c : String) : Option Value := do
  let j ← df.colIndex c
  let r ← df.rows[i]?
  pure (r.getD j Value.null)

/-- data.get(c, dflt) where data is df.iloc[0] when df is nonempty and the
empty dict otherwise (app.py:372): a missing row or label yields the default,
never an exception. -/
def DataFrame.get0 (df : DataFrame) (c : String) (dflt : Value) : Value :=
  match df.rows.head? with
  | none => dflt
  | some r =>
    match df.colIndex c with
    | none => dflt
    | some j => r.getD j Value.null

/-- Numeric contents of a series with NaN skipped (pandas skipna reductions);
none models the TypeError a string or None raises inside a numeric
reduction. -/
def numsSkipNan : List Value → Option (List ℚ)
  | [] => some []
  | Value.num q :: t => (numsSkipNan t).map fun l => q :: l
  | Value.nan :: t => numsSkipNan t
  | Value.str _ :: _ => none
  | Value.null :: _ => none

/-- Series .sum(): 0 on an empty series, NaN skipped, exception on
non-numeric contents. -/
def seriesSum (vs : List Value) : Option Value :=
  (numsSkipNan vs).map fun l => Value.num l.sum

/-- Series .mean(): NaN on an empty (or all-NaN) series, exception on
non-numeric contents. -/
def seriesMean (vs : List Value) : Option Value :=
  (numsSkipNan vs).map fun l =>
    if l.isEmpty then Value.nan else Value.num (l.sum / l.length)

/-- Python float(v): numbers and NaN pass through, None and strings raise
(the service only applies float to warehouse numerics). -/
def pyFloat : Value → Option Value
  | Value.num q => some (Value.num q)
  | Value.nan => some Value.nan
  | _ => none

/-- Truncation toward zero, the behaviour of Python int() on a float. -/
def ratTrunc (q : ℚ) : ℤ := q.num / (q.den : ℤ)

/-- Python int(v): truncates a number toward zero; NaN, None and strings
raise here. -/
def pyInt : Value → Option ℤ
  | Value.num q => some (ratTrunc q)
  | _ => none

/-- Python float subtraction with NaN propagation; non-numbers raise. -/
def valSub : Value → Value → Option Value
  | Value.num a, Value.num b => some (Value.num (a - b))
  | Value.num _, Value.nan => some Value.nan
  | Value.nan, Value.num _ => some Value.nan
  | Value.nan, Value.nan => some Value.nan
  | _, _ => none

/-- The JSON documents this service serializes (json.dumps with default=str
never fails on these shapes; NaN is kept as a distinguished number). -/
inductive Json where
  | null
  | nan
  | num (q : ℚ)
  | str (s : String)
  | arr (xs : List Json)
  | obj (fields : List (String × Json))

/-- Embed a warehouse cell into the report JSON. -/
def valueToJson : Value → Json
  | Value.num q => Json.num q
  | Value.nan => Json.nan
  | Value.str s => Json.str s
  | Value.null => Json.null

/-- The top-level key list of a JSON object, in insertion order. -/
def jsonTopKeys : Json → List String
  | Json.obj fields => fields.map Prod.fst
  | _ => []

/-- Field lookup in a JSON object. -/
def jsonLookup (j : Json) (k : String) : Option Json :=
  match j with
  | Json.obj fields => List.lookup k fields
  | _ => none

/-- df.to_dict(orient=records) (app.py:338 and friends): the row-oriented
dump of the result set, one object per row keyed by the column names. -/
def toRecords (df : DataFrame) : Json :=
  Json.arr (df.rows.map fun r => Json.obj (df.columns.zip (r.map valueToJson)))

/-- len(df[df[c] == s]): the number of rows whose cell in column c equals the
string s; none when the column is absent. -/
def DataFrame.countEq (df : DataFrame) (c : String) (s : String) : Option ℕ :=
  (df.col c).map fun vs => (vs.filter (· == Value.str s)).length

/-- The closed enumeration of report types (app.py:143-149). -/
inductive ReportType where
  | sales
  | customer
  | product
  | executive
  | quality
deriving DecidableEq

/-- The dispatch tags, the keys of ReportGenerator.generators
(app.py:143-149). -/
def tagOf : ReportType → String
  | ReportType.sales => "SALES_REPORT"
  | ReportType.customer => "CUSTOMER_ANALYSIS"
  | ReportType.product => "PRODUCT_PERFORMANCE"
  | ReportType.executive => "EXECUTIVE_DASHBOARD"
  | ReportType.quality => "DATA_QUALITY"

/-- The five supported dispatch tags, as listed in the generators
dictionary. -/
def supportedReportTags : List String :=
  [ "SALES_REPORT", "CUSTOMER_ANALYSIS", "PRODUCT_PERFORMANCE",
    "EXECUTIVE_DASHBOARD", "DATA_QUALITY"]

/-- self.generators.get(tag) (app.py:153): dictionary lookup of the
upper-cased tag. -/
def generatorFor : String → Option ReportType
  | "SALES_REPORT" => some ReportType.sales
  | "CUSTOMER_ANALYSIS" => some ReportType.customer
  | "PRODUCT_PERFORMANCE" => some ReportType.product
  | "EXECUTIVE_DASHBOARD" => some ReportType.executive
  | "DATA_QUALITY" => some ReportType.quality
  | _ => none

/-- The fixed warehouse query each generator executes
(app.py:163-176, 196-207, 227-241, 261-276, 296-309). -/
def queryOf : ReportType → String
  | ReportType.sales => "\n            SELECT \n                sales_month,\n                total_orders,\n                unique_customers,\n                total_revenue,\n                avg_order_value,\n                revenue_growth_pct,\n                top_selling_product,\n                top_selling_category\n            FROM reporting.sales_performance\n            WHERE sales_month >= DATEADD(\x27month\x27, -6, CURRENT_DATE())\n            ORDER BY sales_month DESC\n            "
  | ReportType.customer => "\n            SELECT \n                customer_tier,\n                COUNT(*) as customer_count,\n                AVG(lifetime_value) as avg_ltv,\n                AVG(total_orders) as avg_orders,\n                SUM(total_spent) as total_revenue,\n                customer_status\n            FROM reporting.customer_360\n            GROUP BY customer_tier, customer_status\n            ORDER BY customer_tier, customer_status\n            "
  | ReportType.product => "\n            SELECT \n                product_name,\n                category,\n                total_revenue,\n                total_quantity_sold,\n                margin_percentage,\n                revenue_rank,\n                unique_customers,\n                last_sale_date\n            FROM reporting.product_performance\n            WHERE total_revenue > 0\n            ORDER BY total_revenue DESC\n            LIMIT 50\n            "
  | ReportType.executive => "\n            SELECT \n                report_date,\n                ytd_revenue,\n                last_year_revenue,\n                total_active_customers,\n                customers_with_orders_ytd,\n                active_products,\n                products_sold_ytd,\n                orders_ytd,\n                avg_order_value_ytd,\n                jobs_today,\n                jobs_completed_today,\n                jobs_failed_today\n            FROM reporting.executive_dashboard\n            "
  | ReportType.quality => "\n            SELECT \n                check_name,\n                table_name,\n                check_type,\n                status,\n                check_timestamp,\n                expected_result,\n                actual_result,\n                error_details\n            FROM monitoring.data_quality_checks\n            WHERE check_timestamp >= DATEADD(\x27day\x27, -7, CURRENT_DATE())\n            ORDER BY check_timestamp DESC\n            "

/-- The column headers each query produces: cursor.description returns the
selected identifiers, upper-cased by the warehouse for unquoted
identifiers. -/
def queryColumnsOf : ReportType → List String
  | ReportType.sales =>
    [ "SALES_MONTH", "TOTAL_ORDERS", "UNIQUE_CUSTOMERS", "TOTAL_REVENUE",
      "AVG_ORDER_VALUE", "REVENUE_GROWTH_PCT", "TOP_SELLING_PRODUCT",
      "TOP_SELLING_CATEGORY"]
  | ReportType.customer =>
    [ "CUSTOMER_TIER", "CUSTOMER_COUNT", "AVG_LTV", "AVG_ORDERS",
      "TOTAL_REVENUE", "CUSTOMER_STATUS"]
  | ReportType.product =>
    [ "PRODUCT_NAME", "CATEGORY", "TOTAL_REVENUE", "TOTAL_QUANTITY_SOLD",
      "MARGIN_PERCENTAGE", "REVENUE_RANK", "UNIQUE_CUSTOMERS",
      "LAST_SALE_DATE"]
  | ReportType.executive =>
    [ "REPORT_DATE", "YTD_REVENUE", "LAST_YEAR_REVENUE",
      "TOTAL_ACTIVE_CUSTOMERS", "CUSTOMERS_WITH_ORDERS_YTD",
      "ACTIVE_PRODUCTS", "PRODUCTS_SOLD_YTD", "ORDERS_YTD",
      "AVG_ORDER_VALUE_YTD", "JOBS_TODAY", "JOBS_COMPLETED_TODAY",
      "JOBS_FAILED_TODAY"]
  | ReportType.quality =>
    [ "CHECK_NAME", "TABLE_NAME", "CHECK_TYPE", "STATUS", "CHECK_TIMESTAMP",
      "EXPECTED_RESULT", "ACTUAL_RESULT", "ERROR_DETAILS"]

/-- An empty result set carrying the query column headers (zero rows). -/
def emptyResult (t : ReportType) : DataFrame :=
  { columns := queryColumnsOf t, rows := [] }

/-- _create_sales_report_content (app.py:326-339). None models a raised
exception inside the dict construction. -/
def createSalesReportContent (df : DataFrame) (params : Json) (now : String) :
    Option Json := do
  let latestRevenue ←
    if df.rows.isEmpty then pure (Json.num 0)
    else do
      let v ← df.cell 0 "TOTAL_REVENUE"
      let f ← pyFloat v
      pure (valueToJson f)
  let ordersSum ← (df.col "TOTAL_ORDERS").bind seriesSum
  let totalOrders ← pyInt ordersSum
  let revMean ← (df.col "TOTAL_REVENUE").bind seriesMean
  let avgMonthly ← pyFloat revMean
  pure (Json.obj
    [ ("report_type", Json.str "Sales Performance Report"),
      ("generated_at", Json.str now),
      ("parameters", params),
      ("summary", Json.obj
        [ ("total_months", Json.num df.rows.length),
          ("latest_revenue", latestRevenue),
          ("total_orders_ytd", Json.num totalOrders),
          ("avg_monthly_revenue", valueToJson avgMonthly)]),
      ("data", toRecords df)])

/-- _create_customer_analysis_content (app.py:341-353). -/
def createCustomerAnalysisContent (df : DataFrame) (params : Json)
    (now : String) : Option Json := do
  let countSum ← (df.col "CUSTOMER_COUNT").bind seriesSum
  let totalCustomers ← pyInt countSum
  let ltvMean ← (df.col "AVG_LTV").bind seriesMean
  let avgLtv ← pyFloat ltvMean
  let revSum ← (df.col "TOTAL_REVENUE").bind seriesSum
  let totalRevenue ← pyFloat revSum
  pure (Json.obj
    [ ("report_type", Json.str "Customer Analysis Report"),
      ("generated_at", Json.str now),
      ("parameters", params),
      ("summary", Json.obj
        [ ("total_customers", Json.num totalCustomers),
          ("avg_lifetime_value", valueToJson avgLtv),
          ("total_revenue", valueToJson totalRevenue)]),
      ("data", toRecords df)])

/-- _create_product_performance_content (app.py:355-368). -/
def createProductPerformanceContent (df : DataFrame) (params : Json)
    (now : String) : Option Json := do
  let topProduct ←
    if df.rows.isEmpty then pure Json.null
    else do
      let v ← df.cell 0 "PRODUCT_NAME"
      pure (valueToJson v)
  let revSum ← (df.col "TOTAL_REVENUE").bind seriesSum
  let totalRevenue ← pyFloat revSum
  let marginMean ← (df.col "MARGIN_PERCENTAGE").bind seriesMean
  let avgMargin ← pyFloat marginMean
  pure (Json.obj
    [ ("report_type", Json.str "Product Performance Report"),
      ("generated_at", Json.str now),
      ("parameters", params),
      ("summary", Json.obj
        [ ("total_products", Json.num df.rows.length),
          ("top_product", topProduct),
          ("total_revenue", valueToJson totalRevenue),
          ("avg_margin", valueToJson avgMargin)]),
      ("data", toRecords df)])

/-- The guarded denominator of jobs_success_rate (app.py:384): the divisor
is max(int(data.get(JOBS_TODAY, 1)), 1). -/
def execRateDenom (jobsToday : ℤ) : ℤ := max jobsToday 1

/-- _create_executive_dashboard_content (app.py:370-386). Note that this
builder emits a metrics block and, unlike the other four, no data key. -/
def createExecutiveDashboardContent (df : DataFrame) (params : Json)
    (now : String) : Option Json := do
  let ytd ← pyFloat (df.get0 "YTD_REVENUE" (Value.num 0))
  let lastYear ← pyFloat (df.get0 "LAST_YEAR_REVENUE" (Value.num 0))
  let growth ← valSub ytd lastYear
  let activeCustomers ← pyInt (df.get0 "TOTAL_ACTIVE_CUSTOMERS" (Value.num 0))
  let ordersYtd ← pyInt (df.get0 "ORDERS_YTD" (Value.num 0))
  let avgOrderValue ← pyFloat (df.get0 "AVG_ORDER_VALUE_YTD" (Value.num 0))
  let jobsToday ← pyInt (df.get0 "JOBS_TODAY" (Value.num 0))
  let jobsCompleted ← pyInt (df.get0 "JOBS_COMPLETED_TODAY" (Value.num 0))
  let jobsTodayD ← pyInt (df.get0 "JOBS_TODAY" (Value.num 1))
  let rate : ℚ := (jobsCompleted : ℚ) / ((execRateDenom jobsTodayD : ℤ) : ℚ) * 100
  pure (Json.obj
    [ ("report_type", Json.str "Executive Dashboard"),
      ("generated_at", Json.str now),
      ("parameters", params),
      ("metrics", Json.obj
        [ ("ytd_revenue", valueToJson ytd),
          ("revenue_growth", valueToJson growth),
          ("active_customers", Json.num activeCustomers),
          ("orders_ytd", Json.num ordersYtd),
          ("avg_order_value", valueToJson avgOrderValue),
          ("jobs_today", Json.num jobsToday),
          ("jobs_success_rate", Json.num rate)])])

/-- The guarded denominator of the data-quality success_rate (app.py:398):
the divisor is max(len(df), 1). -/
def dqRateDenom (df : DataFrame) : ℕ := max df.rows.length 1

/-- _create_data_quality_content (app.py:388-401). -/
def createDataQualityContent (df : DataFrame) (params : Json) (now : String) :
    Option Json := do
  let passed ← df.countEq "STATUS" "PASS"
  let failed ← df.countEq "STATUS" "FAIL"
  let rate : ℚ := (passed : ℚ) / ((dqRateDenom df : ℕ) : ℚ) * 100
  pure (Json.obj
    [ ("report_type", Json.str "Data Quality Report"),
      ("generated_at", Json.str now),
      ("parameters", params),
      ("summary", Json.obj
        [ ("total_checks", Json.num df.rows.length),
          ("passed_checks", Json.num passed),
          ("failed_checks", Json.num failed),
          ("success_rate", Json.num rate)]),
      ("data", toRecords df)])

/-- The content builder each generator applies to its query result. -/
def builderOf : ReportType → DataFrame → Json → String → Option Json
  | ReportType.sales => createSalesReportContent
  | ReportType.customer => createCustomerAnalysisContent
  | ReportType.product => createProductPerformanceContent
  | ReportType.executive => createExecutiveDashboardContent
  | ReportType.quality => createDataQualityContent

/-- The storage key each generator formats (app.py:184, 215, 249, 284, 317):
the literal f-string with the job id and the timestamp interpolated. -/
def s3Key (t : ReportType) (jobId ts : String) : String :=
  match t with
  | ReportType.sales =>
    "reports/sales/" ++ jobId ++ "_sales_report_" ++ ts ++ ".json"
  | ReportType.customer =>
    "reports/customers/" ++ jobId ++ "_customer_analysis_" ++ ts ++ ".json"
  | ReportType.product =>
    "reports/products/" ++ jobId ++ "_product_performance_" ++ ts ++ ".json"
  | ReportType.executive =>
    "reports/executive/" ++ jobId ++ "_executive_dashboard_" ++ ts ++ ".json"
  | ReportType.quality =>
    "reports/quality/" ++ jobId ++ "_data_quality_" ++ ts ++ ".json"

/-- The report category segment of the storage key, per report type. -/
def categoryOf : ReportType → String
  | ReportType.sales => "sales"
  | ReportType.customer => "customers"
  | ReportType.product => "products"
  | ReportType.executive => "executive"
  | ReportType.quality => "quality"

/-- The report name segment of the storage key, per report type. -/
def reportNameOf : ReportType → String
  | ReportType.sales => "sales_report"
  | ReportType.customer => "customer_analysis"
  | ReportType.product => "product_performance"
  | ReportType.executive => "executive_dashboard"
  | ReportType.quality => "data_quality"

/-- The default bucket name (S3_REPORTS_BUCKET fallback, app.py:74). -/
def s3Bucket : String := "snowflake-reports-bucket"

/-- Externally visible side effects of one generator run: warehouse reads
and storage writes (status updates are recorded separately). -/
inductive Effect where
  | query (sql : String)
  | s3put (key : String)
deriving DecidableEq

/-- Failure injection for the two external calls a generator makes: the
warehouse query either raises or returns a result set, and the storage put
either succeeds or raises ClientError. The now field is the formatted
datetime.now() timestamp for this run. -/
structure Env where
  queryResult : Except String DataFrame
  uploadOk : Bool
  now : String

/-- One generator body (app.py:159-324, all five share this shape): execute
the fixed query, shape the content, upload under the formatted key, return
the storage URL. Raised exceptions propagate as error; the trace records
the external calls that were actually performed (a failed upload retains no
object). -/
def runGenerator (t : ReportType) (jobId : String) (params : Json)
    (env : Env) : List Effect × Except String String :=
  match env.queryResult with
  | Except.error m => ([Effect.query (queryOf t)], Except.error m)
  | Except.ok df =>
    match builderOf t df params env.now with
    | none => ([Effect.query (queryOf t)], Except.error "content shaping raised")
    | some _ =>
      let key := s3Key t jobId env.now
      if env.uploadOk then
        ( [Effect.query (queryOf t), Effect.s3put key],
          Except.ok ("s3://" ++ s3Bucket ++ "/" ++ key))
      else ([Effect.query (queryOf t)], Except.error "S3 upload raised")

/-- ReportGenerator.generate_report (app.py:151-157): look the upper-cased
tag up in the generators dictionary; an unknown tag raises ValueError
before any external call. -/
def generateReport (jobId reportType : String) (params : Json) (env : Env) :
    List Effect × Except String String :=
  match generatorFor (strUpper reportType) with
  | none => ([], Except.error ("Unsupported report type: " ++ reportType))
  | some t => runGenerator t jobId params env

/-- One status update issued through update_job_status (app.py:123-135):
the status literal with the optional output location or error message and
the elapsed seconds. -/
inductive StatusUpdate where
  | running
  | completed (output : String) (time : ℚ)
  | failed (error : String) (time : ℚ)
deriving DecidableEq

/-- Whether a status update carries a terminal state. -/
def StatusUpdate.isTerminal : StatusUpdate → Bool
  | StatusUpdate.running => false
  | StatusUpdate.completed _ _ => true
  | StatusUpdate.failed _ _ => true

/-- The accepted job description (the JobRequest model, app.py:46-53),
restricted to the fields process_job_async reads: the job id, the job type
tag, the input map, and input_data.get(report_type) when that key holds a
string. -/
structure JobRequest where
  job_id : String
  job_type : String
  input_report_type : Option String
  input_data : Json

/-- process_job_async (app.py:434-481): update the job to RUNNING, resolve
the report type from the input map with the job type as fallback, generate,
then record exactly one terminal update: COMPLETED with the storage URL on
success, FAILED with the prefixed exception text otherwise. The elapsed
time t is opaque here. Status updates are modelled as delivered; failures
are injected into the generation pipeline through env. -/
def processJobAsync (req : JobRequest) (env : Env) (t : ℚ) :
    List StatusUpdate × List Effect :=
  let reportType := req.input_report_type.getD req.job_type
  let gen := generateReport req.job_id reportType req.input_data env
  match gen.2 with
  | Except.ok url =>
    ([StatusUpdate.running, StatusUpdate.completed url t], gen.1)
  | Except.error e =>
    ( [ StatusUpdate.running,
        StatusUpdate.failed ("Job processing failed: " ++ e) t], gen.1)

/-- The 24-hour job counters the metrics query aggregates
(app.py:554-563); the AVG is NULL when no row is in range. -/
structure MetricsCounts where
  total_jobs : ℤ
  completed_jobs : ℤ
  failed_jobs : ℤ
  running_jobs : ℤ
  avg_execution_time : Option ℚ

/-- The success_rate expression of the metrics endpoint (app.py:577):
completed over max(total, 1), times 100, with the dictionary defaults 0 and
1 when the aggregate row is missing. -/
def metricsSuccessRate (row : Option MetricsCounts) : ℚ :=
  let completed : ℤ := match row with
    | some m => m.completed_jobs
    | none => 0
  let total : ℤ := match row with
    | some m => m.total_jobs
    | none => 1
  ((completed : ℚ) / ((max total 1 : ℤ) : ℚ)) * 100

/-- The metrics block returned by get_metrics (app.py:568-579). -/
def getMetricsBlock (row : Option MetricsCounts) : Json :=
  let geti : (MetricsCounts → ℤ) → ℤ := fun f =>
    match row with
    | some m => f m
    | none => 0
  let avg : ℚ := match row with
    | some m =>
      match m.avg_execution_time with
      | some q => if q = 0 then 0 else q
      | none => 0
    | none => 0
  Json.obj
    [ ("total_jobs_24h", Json.num (geti MetricsCounts.total_jobs)),
      ("completed_jobs_24h", Json.num (geti MetricsCounts.completed_jobs)),
      ("failed_jobs_24h", Json.num (geti MetricsCounts.failed_jobs)),
      ("running_jobs", Json.num (geti MetricsCounts.running_jobs)),
      ("avg_execution_time_seconds", Json.num avg),
      ("success_rate", Json.num (metricsSuccessRate row))]

/-- A Python exception as the job-status handler sees it: an HTTPException
with a status code and detail, or any other exception with its text. -/
inductive Exc where
  | http (code : ℕ) (detail : String)
  | other (msg : String)
deriving DecidableEq

/-- str(e) for the exceptions above; an HTTPException renders as
code colon detail. -/
def strOfExc : Exc → String
  | Exc.http c d => toString c ++ ": " ++ d
  | Exc.other m => m

/-- One row of the jobs table as the status query selects it
(app.py:530). -/
structure JobRow where
  job_id : String
  status : Value
  output_location : Value
  error_message : Value
  execution_time_seconds : Value

/-- The successful payload of the status endpoint (app.py:537-543). -/
structure JobStatusResponse where
  job_id : String
  status : Value
  output_location : Value
  error_message : Value
  execution_time_seconds : Value
deriving DecidableEq

/-- The body of the try block of get_job_status (app.py:529-543): run the
lookup query, raise HTTPException 404 when the result set is empty,
otherwise answer from the first row. -/
def getJobStatusInner (rows : List JobRow) (jobId : String) :
    Except Exc JobStatusResponse :=
  match rows.filter (fun r => r.job_id == jobId) with
  | [] => Except.error (Exc.http 404 "Job not found")
  | r :: _ =>
    Except.ok
      { job_id := jobId, status := r.status,
        output_location := r.output_location,
        error_message := r.error_message,
        execution_time_seconds := r.execution_time_seconds }

/-- get_job_status (app.py:526-547): the blanket except clause catches
every exception from the try body, the raised HTTPException 404 included,
and re-raises it as HTTPException 500 with str(e) as detail. -/
def getJobStatus (rows : List JobRow) (jobId : String) :
    Except Exc JobStatusResponse :=
  match getJobStatusInner rows jobId with
  | Except.ok r => Except.ok r
  | Except.error e => Except.error (Exc.http 500 (strOfExc e))

/-- any(word in question_lower for word in ws): some keyword of ws occurs
as a substring of s. -/
def anyWordIn (s : String) (ws : List String) : Bool :=
  ws.any fun w => containsSub s w

/-- Keyword set of the customer category (streamlit app.py:327). -/
def customerWords : List String := ["customer", "client"]

/-- Secondary keywords of the top-customers template (app.py:328). -/
def topWords : List String := ["top", "best", "highest"]

/-- Secondary keywords of the customer-count template (app.py:340). -/
def countWords : List String := ["count", "total", "number"]

/-- Keyword set of the product category (app.py:366). -/
def productWords : List String := ["product", "item"]

/-- Secondary keywords of the product-price template (app.py:367). -/
def priceWords : List String := ["price", "cost", "expensive"]

/-- Keyword set of the order category (app.py:395). -/
def orderWords : List String := ["order", "sale", "revenue"]

/-- Secondary keywords of the recent-orders template (app.py:396). -/
def recentWords : List String := ["recent", "latest", "new"]

/-- Keyword set of the job category (app.py:423). -/
def jobWords : List String := ["job", "task", "process"]

/-- Canned top-customers query (app.py:329-339). -/
def sqlTopCustomers : String :=
  "\n                SELECT \n                    customer_name,\n                    customer_tier,\n                    lifetime_value,\n                    email,\n                    CASE WHEN is_active THEN \x27Active\x27 ELSE \x27Inactive\x27 END as status\n                FROM raw_data.customers \n                ORDER BY lifetime_value DESC \n                LIMIT 10\n                "

/-- Canned customer-count query (app.py:341-351). -/
def sqlCustomerCounts : String :=
  "\n                SELECT \n                    customer_tier,\n                    COUNT(*) as customer_count,\n                    AVG(lifetime_value) as avg_lifetime_value,\n                    SUM(lifetime_value) as total_lifetime_value\n                FROM raw_data.customers \n                WHERE is_active = TRUE\n                GROUP BY customer_tier\n                ORDER BY customer_count DESC\n                "

/-- Canned customer-tier query, the customer fallback (app.py:353-363). -/
def sqlCustomerTiers : String :=
  "\n                SELECT \n                    customer_tier,\n                    COUNT(*) as count,\n                    AVG(lifetime_value) as avg_ltv,\n                    MIN(created_at) as first_customer,\n                    MAX(created_at) as latest_customer\n                FROM raw_data.customers \n                GROUP BY customer_tier\n                ORDER BY count DESC\n                "

/-- Canned product-price query (app.py:368-379). -/
def sqlProductPrices : String :=
  "\n                SELECT \n                    product_name,\n                    category,\n                    price,\n                    cost,\n                    ROUND((price - cost) / price * 100, 2) as margin_percentage,\n                    is_active\n                FROM raw_data.products \n                ORDER BY price DESC \n                LIMIT 15\n                "

/-- Canned product-category query, the product fallback (app.py:381-392). -/
def sqlProductCategories : String :=
  "\n                SELECT \n                    category,\n                    COUNT(*) as product_count,\n                    AVG(price) as avg_price,\n                    AVG(cost) as avg_cost,\n                    AVG((price - cost) / price * 100) as avg_margin_pct\n                FROM raw_data.products \n                WHERE is_active = TRUE\n                GROUP BY category\n                ORDER BY product_count DESC\n                "

/-- Canned recent-orders query (app.py:397-408). -/
def sqlRecentOrders : String :=
  "\n                SELECT \n                    o.order_id,\n                    c.customer_name,\n                    o.order_date,\n                    o.total_amount,\n                    o.status\n                FROM raw_data.orders o\n                JOIN raw_data.customers c ON o.customer_id = c.customer_id\n                ORDER BY o.order_date DESC \n                LIMIT 20\n                "

/-- Canned monthly-revenue query, the order fallback (app.py:410-420). -/
def sqlMonthlyRevenue : String :=
  "\n                SELECT \n                    DATE_TRUNC(\x27month\x27, order_date) as month,\n                    COUNT(*) as order_count,\n                    SUM(total_amount) as total_revenue,\n                    AVG(total_amount) as avg_order_value\n                FROM raw_data.orders \n                WHERE order_date >= DATEADD(\x27month\x27, -12, CURRENT_DATE())\n                GROUP BY DATE_TRUNC(\x27month\x27, order_date)\n                ORDER BY month DESC\n                "

/-- Canned job query (app.py:424-435). -/
def sqlJobs : String :=
  "\n            SELECT \n                job_type,\n                status,\n                COUNT(*) as job_count,\n                AVG(execution_time_seconds) as avg_execution_time,\n                MAX(created_at) as latest_job\n            FROM raw_data.jobs \n            WHERE created_at >= DATEADD(\x27day\x27, -7, CURRENT_DATE())\n            GROUP BY job_type, status\n            ORDER BY job_count DESC\n            "

/-- The no-match default template (app.py:439-445): an f-string that echoes
the original question verbatim. -/
def sqlDefaultEcho (question : String) : String :=
  "\n            SELECT \n                \x27Your question: " ++ question ++ "\x27 as question_asked,\n                \x27This is a simulated Cortex Analyst response\x27 as response_type,\n                CURRENT_TIMESTAMP() as processed_at,\n                \x27Use more specific terms like customers, products, orders, or jobs for better results\x27 as suggestion\n            "

/-- CortexAnalystChat._simulate_cortex_translation (streamlit
app.py:319-445): lower-case the question, then scan the keyword categories
in source order (customer, product, order, job) with secondary keywords
inside a category; echo the question when nothing matches. -/
def simulateCortexTranslation (question : String) : String :=
  let question_lower := strLower question
  if anyWordIn question_lower customerWords then
    if anyWordIn question_lower topWords then sqlTopCustomers
    else if anyWordIn question_lower countWords then sqlCustomerCounts
    else sqlCustomerTiers
  else if anyWordIn question_lower productWords then
    if anyWordIn question_lower priceWords then sqlProductPrices
    else sqlProductCategories
  else if anyWordIn question_lower orderWords then
    if anyWordIn question_lower recentWords then sqlRecentOrders
    else sqlMonthlyRevenue
  else if anyWordIn question_lower jobWords then sqlJobs
  else sqlDefaultEcho question

/-- Whether some keyword category matches the lower-cased question. -/
def matchesAnyCategory (question : String) : Bool :=
  anyWordIn (strLower question) customerWords ||
  anyWordIn (strLower question) productWords ||
  anyWordIn (strLower question) orderWords ||
  anyWordIn (strLower question) jobWords

theorem prepend_ne_empty (p s : String) (hp : 0 < p.length) : (p ++ s) ≠ "" := by
  intro h
  have h2 := congrArg String.length h
  rw [String.length_append] at h2
  have h0 : ("" : String).length = 0 := rfl
  rw [h0] at h2
  omega

theorem generatorFor_mem {s : String} {t : ReportType}
    (h : generatorFor s = some t) : s ∈ supportedReportTags := by
  unfold generatorFor at h
  split at h <;> simp_all [supportedReportTags]

/-- C1: a report-type tag whose upper-cased form is outside the five-member
enumeration makes generate_report raise the unsupported-type ValueError with
an empty external-effect trace (no warehouse query, no storage write), while
a tag whose upper-cased form is a member dispatches to the matching
generator. -/
theorem generate_report_dispatch (jobId reportType : String) (params : Json)
    (env : Env) :
    (strUpper reportType ∉ supportedReportTags →
      generateReport jobId reportType params env =
        ([], Except.error ("Unsupported report type: " ++ reportType))) ∧
    (∀ t : ReportType, strUpper reportType = tagOf t →
      generateReport jobId reportType params env =
        runGenerator t jobId params env) := by
  constructor
  · intro hmem
    unfold generateReport
    cases hg : generatorFor (strUpper reportType) with
    | none => rfl
    | some t => exact absurd (generatorFor_mem hg) hmem
  · intro t ht
    unfold generateReport
    rw [ht]
    cases t <;> rfl

/-- Environment used to instantiate theorems at concrete inputs: a
successful query returning an empty result set and a successful upload. -/
def env0 : Env :=
  { queryResult := Except.ok { columns := [], rows := [] },
    uploadOk := true, now := "20240101_000000" }

theorem generate_report_dispatch_witness :
    generateReport "job-1" "WEEKLY_DIGEST" Json.null env0 =
      ([], Except.error "Unsupported report type: WEEKLY_DIGEST") ∧
    generateReport "job-1" "sales_report" Json.null env0 =
      runGenerator ReportType.sales "job-1" Json.null env0 :=
  ⟨(generate_report_dispatch "job-1" "WEEKLY_DIGEST" Json.null env0).1
      (by decide),
   (generate_report_dispatch "job-1" "sales_report" Json.null env0).2
      ReportType.sales (by rfl)⟩

theorem runGenerator_outcomes (t : ReportType) (jobId : String)
    (params : Json) (env : Env) :
    (∃ url, (runGenerator t jobId params env).2 = Except.ok url ∧
      url ≠ "") ∨
    (∃ e, (runGenerator t jobId params env).2 = Except.error e ∧
      ∀ k, Effect.s3put k ∉ (runGenerator t jobId params env).1) := by
  rcases hq : env.queryResult with m | df
  · exact Or.inr ⟨m, by simp [runGenerator, hq],
      by intro k; simp [runGenerator, hq]⟩
  · rcases hb : builderOf t df params env.now with _ | j
    · exact Or.inr ⟨"content shaping raised", by simp [runGenerator, hq, hb],
        by intro k; simp [runGenerator, hq, hb]⟩
    · rcases hu : env.uploadOk with _ | _
      · exact Or.inr ⟨"S3 upload raised", by simp [runGenerator, hq, hb, hu],
          by intro k; simp [runGenerator, hq, hb, hu]⟩
      · exact Or.inl ⟨"s3://" ++ s3Bucket ++ "/" ++ s3Key t jobId env.now,
          by simp [runGenerator, hq, hb, hu],
          prepend_ne_empty "s3://" _ (by decide)⟩

theorem generateReport_outcomes (jobId rt : String) (params : Json)
    (env : Env) :
    (∃ url, (generateReport jobId rt params env).2 = Except.ok url ∧
      url ≠ "") ∨
    (∃ e, (generateReport jobId rt params env).2 = Except.error e ∧
      ∀ k, Effect.s3put k ∉ (generateReport jobId rt params env).1) := by
  unfold generateReport
  cases hg : generatorFor (strUpper rt) with
  | none => exact Or.inr ⟨_, rfl, by intro k; simp⟩
  | some t => exact runGenerator_outcomes t jobId params env

/-- C2: every job processed by the background task issues exactly the
status sequence RUNNING followed by one terminal update: COMPLETED with a
non-empty storage location, or FAILED with a non-empty error message; never
both terminals, and a FAILED run retains no storage upload. Status-update
delivery itself is modelled as succeeding; failures are injected into the
query, shaping and upload steps through env. -/
theorem job_status_transition_sequence (req : JobRequest) (env : Env)
    (t : ℚ) :
    (∃ url, (processJobAsync req env t).1 =
        [StatusUpdate.running, StatusUpdate.completed url t] ∧ url ≠ "") ∨
    (∃ msg, (processJobAsync req env t).1 =
        [StatusUpdate.running, StatusUpdate.failed msg t] ∧ msg ≠ "" ∧
        ∀ k, Effect.s3put k ∉ (processJobAsync req env t).2) := by
  rcases generateReport_outcomes req.job_id
      (req.input_report_type.getD req.job_type) req.input_data env with
    ⟨url, hok, hne⟩ | ⟨e, herr, hnoput⟩
  · exact Or.inl ⟨url, by simp [processJobAsync, hok], hne⟩
  · refine Or.inr ⟨"Job processing failed: " ++ e,
      by simp [processJobAsync, herr], ?_, ?_⟩
    · exact prepend_ne_empty "Job processing failed: " e (by decide)
    · intro k
      simpa [processJobAsync, herr] using hnoput k

/-- C5: the metrics endpoint computes success_rate as completed jobs over
max(total jobs, 1) times 100; the denominator is positive for every input
count, and a row with zero total and zero completed jobs yields rate 0. -/
theorem metrics_success_rate_guarded (m : MetricsCounts) :
    metricsSuccessRate (some m) =
      ((m.completed_jobs : ℚ) / ((max m.total_jobs 1 : ℤ) : ℚ)) * 100 ∧
    (0 : ℤ) < max m.total_jobs 1 ∧
    (m.total_jobs = 0 → m.completed_jobs = 0 →
      metricsSuccessRate (some m) = 0) ∧
    jsonLookup (getMetricsBlock (some m)) "success_rate" =
      some (Json.num (metricsSuccessRate (some m))) := by
  refine ⟨rfl, ?_, ?_, rfl⟩
  · exact lt_of_lt_of_le Int.one_pos (le_max_right m.total_jobs 1)
  · intro h1 h2
    have hval : metricsSuccessRate (some m) =
        ((m.completed_jobs : ℚ) / ((max m.total_jobs 1 : ℤ) : ℚ)) * 100 := rfl
    rw [hval, h1, h2]
    norm_num

theorem metrics_success_rate_guarded_witness :
    metricsSuccessRate (some ⟨0, 0, 0, 0, none⟩) = 0 :=
  (metrics_success_rate_guarded ⟨0, 0, 0, 0, none⟩).2.2.1 rfl rfl

/-- C9: both guarded summarizer denominators are positive on every input:
the data-quality success_rate divides by max(row count, 1) and the
executive-dashboard jobs_success_rate divides by max(jobs_today, 1), so no
summarizer division has a zero denominator. -/
theorem summarizer_denominators_positive (df : DataFrame) (n : ℤ) :
    0 < dqRateDenom df ∧ 0 < execRateDenom n := by
  constructor
  · exact Nat.lt_of_lt_of_le Nat.one_pos (Nat.le_max_right df.rows.length 1)
  · exact lt_of_lt_of_le Int.one_pos (le_max_right n 1)

/-- C8 (code bug evaluation): a job id with no row in the jobs table makes
the handler raise HTTPException 404 inside its try body, but the blanket
except clause catches it and re-raises HTTPException 500, so the caller
receives a 500 whose detail is the rendered 404 exception, not a 404. -/
theorem job_status_missing_returns_500 :
    getJobStatus [] "missing-job" =
      Except.error (Exc.http 500 "404: Job not found") := rfl

/-- C3: each of the five content builders, applied to an empty result set
that carries its query column headers, raises no exception; the sales
summary on zero rows reports total_months 0 and latest_revenue 0. -/
theorem summarizers_safe_on_empty (params : Json) (now : String) :
    (∀ t : ReportType, (builderOf t (emptyResult t) params now).isSome = true) ∧
    ((createSalesReportContent (emptyResult ReportType.sales) params now).bind
        (fun j => (jsonLookup j "summary").bind
          (fun s => jsonLookup s "total_months")) = some (Json.num 0)) ∧
    ((createSalesReportContent (emptyResult ReportType.sales) params now).bind
        (fun j => (jsonLookup j "summary").bind
          (fun s => jsonLookup s "latest_revenue")) = some (Json.num 0)) := by
  refine ⟨?_, ?_, ?_⟩
  · intro t
    cases t <;> rfl
  · rfl
  · rfl

/-- The fixed top-level key list of each builder output: the executive
dashboard carries a metrics block and no data key; the other four carry a
summary block and the data dump. -/
def expectedTopKeys : ReportType → List String
  | ReportType.executive => ["report_type", "generated_at", "parameters", "metrics"]
  | _ => ["report_type", "generated_at", "parameters", "summary", "data"]

/-- C4 counterexample: at the concrete input of an empty executive result
set, the executive-dashboard document has top-level keys report_type,
generated_at, parameters, metrics only — the data key required by the claim
is absent, so not every report document has the claimed five-key shape. -/
theorem exec_dashboard_missing_data_key :
    ((createExecutiveDashboardContent (emptyResult ReportType.executive)
        Json.null "t0").map jsonTopKeys =
      some ["report_type", "generated_at", "parameters", "metrics"]) ∧
    "data" ∉ ["report_type", "generated_at", "parameters", "metrics"] :=
  ⟨rfl, by decide⟩

/-- C4 (amended): every document produced by a content builder has exactly
the fixed top-level keys report_type, generated_at, parameters, then a
summary block plus the row-oriented data dump for the four non-executive
builders, while the executive dashboard has a metrics block and omits the
data key. -/
theorem bind_some_elim {α β : Type} {x : Option α} {f : α → Option β}
    {b : β} (h : x.bind f = some b) : ∃ a, f a = some b := by
  cases x with
  | none => simp at h
  | some a => exact ⟨a, h⟩

theorem report_document_shape (t : ReportType) (df : DataFrame)
    (params : Json) (now : String) (j : Json)
    (h : builderOf t df params now = some j) :
    jsonTopKeys j = expectedTopKeys t ∧
    (t ≠ ReportType.executive → jsonLookup j "data" = some (toRecords df)) := by
  cases t
  case sales =>
    simp only [builderOf, createSalesReportContent, bind] at h
    by_cases he : df.rows.isEmpty <;>
      simp only [he, if_true, if_false, Option.pure_def, Option.some_bind] at h
    · obtain ⟨a1, h⟩ := bind_some_elim h
      obtain ⟨a2, h⟩ := bind_some_elim h
      obtain ⟨a3, h⟩ := bind_some_elim h
      obtain ⟨a4, h⟩ := bind_some_elim h
      injection h with h
      subst h
      exact ⟨rfl, fun _ => rfl⟩
    · obtain ⟨v, h⟩ := bind_some_elim h
      obtain ⟨f, h⟩ := bind_some_elim h
      obtain ⟨a1, h⟩ := bind_some_elim h
      obtain ⟨a2, h⟩ := bind_some_elim h
      obtain ⟨a3, h⟩ := bind_some_elim h
      obtain ⟨a4, h⟩ := bind_some_elim h
      injection h with h
      subst h
      exact ⟨rfl, fun _ => rfl⟩
  case customer =>
    simp only [builderOf, createCustomerAnalysisContent, bind,
      Option.pure_def, Option.some_bind] at h
    obtain ⟨a1, h⟩ := bind_some_elim h
    obtain ⟨a2, h⟩ := bind_some_elim h
    obtain ⟨a3, h⟩ := bind_some_elim h
    obtain ⟨a4, h⟩ := bind_some_elim h
    obtain ⟨a5, h⟩ := bind_some_elim h
    obtain ⟨a6, h⟩ := bind_some_elim h
    injection h with h
    subst h
    exact ⟨rfl, fun _ => rfl⟩
  case product =>
    simp only [builderOf, createProductPerformanceContent, bind] at h
    by_cases he : df.rows.isEmpty <;>
      simp only [he, if_true, if_false, Option.pure_def, Option.some_bind] at h
    · obtain ⟨a1, h⟩ := bind_some_elim h
      obtain ⟨a2, h⟩ := bind_some_elim h
      obtain ⟨a3, h⟩ := bind_some_elim h
      obtain ⟨a4, h⟩ := bind_some_elim h
      injection h with h
      subst h
      exact ⟨rfl, fun _ => rfl⟩
    · obtain ⟨v, h⟩ := bind_some_elim h
      obtain ⟨a1, h⟩ := bind_some_elim h
      obtain ⟨a2, h⟩ := bind_some_elim h
      obtain ⟨a3, h⟩ := bind_some_elim h
      obtain ⟨a4, h⟩ := bind_some_elim h
      injection h with h
      subst h
      exact ⟨rfl, fun _ => rfl⟩
  case executive =>
    simp only [builderOf, createExecutiveDashboardContent, bind,
      Option.pure_def, Option.some_bind] at h
    obtain ⟨a1, h⟩ := bind_some_elim h
    obtain ⟨a2, h⟩ := bind_some_elim h
    obtain ⟨a3, h⟩ := bind_some_elim h
    obtain ⟨a4, h⟩ := bind_some_elim h
    obtain ⟨a5, h⟩ := bind_some_elim h
    obtain ⟨a6, h⟩ := bind_some_elim h
    obtain ⟨a7, h⟩ := bind_some_elim h
    obtain ⟨a8, h⟩ := bind_some_elim h
    obtain ⟨a9, h⟩ := bind_some_elim h
    injection h with h
    subst h
    exact ⟨rfl, fun hne => absurd rfl hne⟩
  case quality =>
    simp only [builderOf, createDataQualityContent, bind,
      Option.pure_def, Option.some_bind] at h
    obtain ⟨a1, h⟩ := bind_some_elim h
    obtain ⟨a2, h⟩ := bind_some_elim h
    injection h with h
    subst h
    exact ⟨rfl, fun _ => rfl⟩

/-- The sales document produced at a concrete empty result set, used to
instantiate the shape theorem. -/
def salesJ0 : Json :=
  (createSalesReportContent (emptyResult ReportType.sales) Json.null
    "t0").getD Json.null

theorem report_document_shape_witness :
    jsonTopKeys salesJ0 = expectedTopKeys ReportType.sales ∧
    (ReportType.sales ≠ ReportType.executive →
      jsonLookup salesJ0 "data" =
        some (toRecords (emptyResult ReportType.sales))) :=
  report_document_shape ReportType.sales (emptyResult ReportType.sales)
    Json.null "t0" salesJ0 rfl

/-- The literal path-and-category segment each generator's f-string starts
with. -/
def headOf : ReportType → String
  | ReportType.sales => "reports/sales/"
  | ReportType.customer => "reports/customers/"
  | ReportType.product => "reports/products/"
  | ReportType.executive => "reports/executive/"
  | ReportType.quality => "reports/quality/"

/-- The literal report-name segment between the job id and the timestamp in
each generator's f-string. -/
def midOf : ReportType → String
  | ReportType.sales => "_sales_report_"
  | ReportType.customer => "_customer_analysis_"
  | ReportType.product => "_product_performance_"
  | ReportType.executive => "_executive_dashboard_"
  | ReportType.quality => "_data_quality_"

theorem s3Key_data (t : ReportType) (j ts : String) :
    (s3Key t j ts).data =
      (headOf t).data ++
        (j.data ++ ((midOf t).data ++ (ts.data ++ (".json" : String).data))) := by
  cases t <;> simp [s3Key, headOf, midOf, strData_append, List.append_assoc]

/-- C7: every storage key follows the fixed template
reports/<category>/<jobid>_<name>_<timestamp>.json with the category
determined by the report type, and the key determines the report type, the
job id and the timestamp uniquely (timestamps have the fixed 15-character
YYYYMMDD_HHMMSS shape the service formats). -/
theorem storage_key_template_and_uniqueness (t₁ t₂ : ReportType)
    (j₁ j₂ ts₁ ts₂ : String) (h₁ : ts₁.length = 15) (h₂ : ts₂.length = 15) :
    (s3Key t₁ j₁ ts₁ =
      ("reports/" ++ categoryOf t₁ ++ "/") ++ j₁ ++
        ("_" ++ reportNameOf t₁ ++ "_") ++ ts₁ ++ ".json") ∧
    (s3Key t₁ j₁ ts₁ = s3Key t₂ j₂ ts₂ →
      t₁ = t₂ ∧ j₁ = j₂ ∧ ts₁ = ts₂) := by
  constructor
  · cases t₁ <;> rfl
  · intro heq
    have hd := congrArg String.data heq
    rw [s3Key_data, s3Key_data] at hd
    have htype : t₁ = t₂ := by
      have h8 : ((headOf t₁).data ++ (j₁.data ++
            ((midOf t₁).data ++ (ts₁.data ++ (".json" : String).data))))[8]? =
          ((headOf t₂).data ++ (j₂.data ++
            ((midOf t₂).data ++ (ts₂.data ++ (".json" : String).data))))[8]? := by
        rw [hd]
      cases t₁ <;> cases t₂ <;>
        first
          | rfl
          | (simp only [headOf] at h8
             rw [List.getElem?_append, List.getElem?_append] at h8
             norm_num at h8
             exact absurd h8 (by decide))
    subst htype
    have hc := List.append_cancel_left hd
    have hlen : ((midOf t₁).data ++ (ts₁.data ++ (".json" : String).data)).length =
        ((midOf t₁).data ++ (ts₂.data ++ (".json" : String).data)).length := by
      have e1 : ts₁.data.length = 15 := h₁
      have e2 : ts₂.data.length = 15 := h₂
      simp [List.length_append, e1, e2]
    have hsplit := List.append_inj' hc hlen
    refine ⟨rfl, strExt hsplit.1, ?_⟩
    have h3 := List.append_cancel_left hsplit.2
    have hlen2 : ts₁.data.length = ts₂.data.length := by
      have e1 : ts₁.data.length = 15 := h₁
      have e2 : ts₂.data.length = 15 := h₂
      rw [e1, e2]
    exact strExt (List.append_inj h3 hlen2).1

theorem storage_key_template_and_uniqueness_witness :
    (s3Key ReportType.sales "job-1" "20240101_120000" =
      "reports/sales/job-1_sales_report_20240101_120000.json") ∧
    ("job-1" = "job-1" ∧ "20240101_120000" = "20240101_120000") := by
  constructor
  · have h := (storage_key_template_and_uniqueness ReportType.sales
      ReportType.sales "job-1" "job-1" "20240101_120000" "20240101_120000"
      (by decide) (by decide)).1
    rw [h]
    rfl
  · have h := (storage_key_template_and_uniqueness ReportType.sales
      ReportType.sales "job-1" "job-1" "20240101_120000" "20240101_120000"
      (by decide) (by decide)).2 rfl
    exact ⟨h.2.1, h.2.2⟩

/-- C6: template selection is a pure function of the input text (it is a
deterministic Lean function), and the keyword categories are scanned in the
fixed precedence order customer, product, order, job, default: whenever the
customer keywords match, the customer sub-template is selected regardless of
the other categories, and so on down the chain; when nothing matches, the
echoing default is returned. -/
theorem template_selection_precedence (q : String) :
    (anyWordIn (strLower q) customerWords = true →
      simulateCortexTranslation q =
        (if anyWordIn (strLower q) topWords then sqlTopCustomers
         else if anyWordIn (strLower q) countWords then sqlCustomerCounts
         else sqlCustomerTiers)) ∧
    (anyWordIn (strLower q) customerWords = false →
     anyWordIn (strLower q) productWords = true →
      simulateCortexTranslation q =
        (if anyWordIn (strLower q) priceWords then sqlProductPrices
         else sqlProductCategories)) ∧
    (anyWordIn (strLower q) customerWords = false →
     anyWordIn (strLower q) productWords = false →
     anyWordIn (strLower q) orderWords = true →
      simulateCortexTranslation q =
        (if anyWordIn (strLower q) recentWords then sqlRecentOrders
         else sqlMonthlyRevenue)) ∧
    (anyWordIn (strLower q) customerWords = false →
     anyWordIn (strLower q) productWords = false →
     anyWordIn (strLower q) orderWords = false →
     anyWordIn (strLower q) jobWords = true →
      simulateCortexTranslation q = sqlJobs) ∧
    (anyWordIn (strLower q) customerWords = false →
     anyWordIn (strLower q) productWords = false →
     anyWordIn (strLower q) orderWords = false →
     anyWordIn (strLower q) jobWords = false →
      simulateCortexTranslation q = sqlDefaultEcho q) := by
  refine ⟨fun h1 => ?_, fun h1 h2 => ?_, fun h1 h2 h3 => ?_,
    fun h1 h2 h3 h4 => ?_, fun h1 h2 h3 h4 => ?_⟩
  · simp [simulateCortexTranslation, h1]
  · simp [simulateCortexTranslation, h1, h2]
  · simp [simulateCortexTranslation, h1, h2, h3]
  · simp [simulateCortexTranslation, h1, h2, h3, h4]
  · simp [simulateCortexTranslation, h1, h2, h3, h4]

theorem template_selection_precedence_witness :
    simulateCortexTranslation "show top customers and products" =
      sqlTopCustomers ∧
    simulateCortexTranslation "product of an order" = sqlProductCategories ∧
    simulateCortexTranslation "revenue and jobs" = sqlMonthlyRevenue := by
  refine ⟨?_, ?_, ?_⟩
  · have h :=
      (template_selection_precedence "show top customers and products").1 rfl
    rw [h]
    rfl
  · have h :=
      (template_selection_precedence "product of an order").2.1 rfl rfl
    rw [h]
    rfl
  · have h :=
      (template_selection_precedence "revenue and jobs").2.2.1 rfl rfl rfl
    rw [h]
    rfl

/-- C10: the template selector lower-cases the question before keyword
scanning, so two inputs with the same lower-casing select the same canned
query whenever any keyword category matches; only the no-match default
branch echoes the original-case input text verbatim. -/
theorem template_selection_case_invariance (q₁ q₂ : String)
    (h : strLower q₁ = strLower q₂) :
    (matchesAnyCategory q₁ = true →
      simulateCortexTranslation q₁ = simulateCortexTranslation q₂) ∧
    (matchesAnyCategory q₁ = false →
      simulateCortexTranslation q₁ = sqlDefaultEcho q₁) := by
  unfold matchesAnyCategory simulateCortexTranslation
  rw [h]
  constructor <;> intro hm <;>
    by_cases h1 : anyWordIn (strLower q₂) customerWords <;>
    by_cases h2 : anyWordIn (strLower q₂) productWords <;>
    by_cases h3 : anyWordIn (strLower q₂) orderWords <;>
    by_cases h4 : anyWordIn (strLower q₂) jobWords <;>
      simp_all

theorem template_selection_case_invariance_witness :
    simulateCortexTranslation "Show CUSTOMERS" =
      simulateCortexTranslation "show customers" ∧
    simulateCortexTranslation "hello there" = sqlDefaultEcho "hello there" :=
  ⟨(template_selection_case_invariance "Show CUSTOMERS" "show customers"
      (by rfl)).1 (by rfl),
   (template_selection_case_invariance "hello there" "hello there" rfl).2
      (by rfl)⟩
